import Mathlib

/-!
Shallow embedding of the environmental-impact computation engine of
`app.py` (county environmental impact viewer).

Conventions of the embedding:
* Python floats are idealised as exact rationals (`ℚ`).
* A dataframe cell that holds either a number or the sentinel string
  `'N/A'` (or `NaN`) is embedded as `Option ℚ`, with `none` standing for
  the `Unavailable` sentinel.
* Unit tags are plain strings, exactly as in the source.
* `numpy.percentile` with its default linear interpolation is embedded
  explicitly (`interp` / `np_percentile` below).
* The two pandas left merges building `plot_df` are embedded
  duplicate-aware: each left row is expanded by all matching right rows,
  or kept with an empty match, exactly like `merge(..., how='left')`.
-/

/-- Embedding of `convert_to_kwh_per_year(power_value, units)` from `app.py`:
an if/elif chain on the unit tag, with a final `else: return 0`. -/
def convert_to_kwh_per_year (power_value : ℚ) (units : String) : ℚ :=
  if units = ("kWh/yr") then power_value
  else if units = ("kWh/mo") then power_value * 12
  else if units = ("kW") then power_value * 8760
  else if units = ("MW") then power_value * 1000 * 8760
  else 0

/-- Embedding of `convert_to_liters_per_year(water_value, units)` from `app.py`:
an if/elif chain on the unit tag, with a final `else: return 0`. -/
def convert_to_liters_per_year (water_value : ℚ) (units : String) : ℚ :=
  if units = ("L/yr") then water_value
  else if units = ("L/mo") then water_value * 12
  else if units = ("L/s") then water_value * 31557600
  else if units = ("gpm") then water_value * 525600 * 3.78541
  else if units = ("gal/mo") then water_value * 12 * 3.78541
  else 0

/-- Embedding of `calculate_carbon_footprint(ef_value, power_kwh_year)` from
`app.py`: `'N/A'` when the emission factor is unavailable or the power is
exactly 0, otherwise `ef * power`. -/
def calculate_carbon_footprint (ef_value : Option ℚ) (power_kwh_year : ℚ) : Option ℚ :=
  match ef_value with
  | none => none
  | some ef => if power_kwh_year = 0 then none else some (ef * power_kwh_year)

/-- Embedding of `calculate_water_footprint(ewif_value, power_kwh_year, water_l_year)`
from `app.py`: when EWIF is unavailable the result is the on-site water if
positive and `'N/A'` otherwise; when available it is `water + EWIF * power`. -/
def calculate_water_footprint (ewif_value : Option ℚ) (power_kwh_year water_l_year : ℚ) :
    Option ℚ :=
  match ewif_value with
  | none => if water_l_year > 0 then some water_l_year else none
  | some ewif => some (water_l_year + ewif * power_kwh_year)

/-- Embedding of
`calculate_water_scarcity_footprint(acf_value, swi_value, power_kwh_year, water_l_year)`
from `app.py`: an unavailable ACF or SWI contributes 0, and the total is
`'N/A'` only when it is 0 and both raw inputs are exactly 0. -/
def calculate_water_scarcity_footprint (acf_value swi_value : Option ℚ)
    (power_kwh_year water_l_year : ℚ) : Option ℚ :=
  let acf_contribution : ℚ :=
    match acf_value with
    | none => 0
    | some acf => acf * water_l_year
  let swi_contribution : ℚ :=
    match swi_value with
    | none => 0
    | some swi => swi * power_kwh_year
  let total_wsf := acf_contribution + swi_contribution
  if total_wsf = 0 ∧ water_l_year = 0 ∧ power_kwh_year = 0 then none
  else some total_wsf

/-- Colors produced by `calculate_percentile_category` in `app.py`.
`gray` is the no-data color; green/yellow/red are the Low/Medium/High
impact tiers. -/
inductive Color where
  | green
  | yellow
  | red
  | gray
deriving DecidableEq

/-- Embedding of the `color_map = {'green': 0, 'yellow': 1, 'red': 2, 'gray': 3}`
numeric color codes of `app.py`. -/
def colorCode : Color → ℕ
  | Color.green => 0
  | Color.yellow => 1
  | Color.red => 2
  | Color.gray => 3

/-- Linear interpolation at fractional rank `r` into the sorted list `s`:
`s[i] + (r - i) * (s[i+1] - s[i])` with `i = ⌊r⌋`.  Out-of-range reads
default so that the second summand vanishes when `r` hits the last index. -/
def interp (s : List ℚ) (r : ℚ) : ℚ :=
  s.getD (⌊r⌋).toNat 0 +
    (r - ((⌊r⌋).toNat : ℚ)) *
      (s.getD ((⌊r⌋).toNat + 1) (s.getD (⌊r⌋).toNat 0) - s.getD (⌊r⌋).toNat 0)

/-- Semantics of `numpy.percentile(a, q)` with the default linear
interpolation method, as called by `app.py`: the value at fractional rank
`q / 100 * (len(a) - 1)` of the sorted data. -/
def np_percentile (a : List ℚ) (q : ℚ) : ℚ :=
  interp (List.insertionSort (· ≤ ·) a) (q * ((a.length : ℚ) - 1) / 100)

/-- Embedding of `calculate_percentile_category(values, selected_metric)` from
`app.py`: filter the numeric values, return all-gray when none remain,
otherwise classify each value against the 33rd and 67th percentiles.
The `selected_metric` parameter is unused, exactly as in the source. -/
def calculate_percentile_category (values : List (Option ℚ)) (selected_metric : String) :
    List Color :=
  let numeric_values := values.filterMap id
  if numeric_values.length = 0 then List.replicate values.length Color.gray
  else
    let p33 := np_percentile numeric_values 33
    let p67 := np_percentile numeric_values 67
    values.map (fun val =>
      match val with
      | none => Color.gray
      | some num_val =>
        if num_val ≤ p33 then Color.green
        else if num_val ≤ p67 then Color.yellow
        else Color.red)

/-- Round a rational to the nearest integer, ties to the even integer.
This is the rounding used by Python string formatting of exact values. -/
def roundHalfEven (x : ℚ) : ℤ :=
  if x - ⌊x⌋ < 1 / 2 then ⌊x⌋
  else if 1 / 2 < x - ⌊x⌋ then ⌊x⌋ + 1
  else if ⌊x⌋ % 2 = 0 then ⌊x⌋ else ⌊x⌋ + 1

/-- Pad a digit string with leading zeros up to width `k`. -/
def padZeros (s : String) (k : ℕ) : String :=
  String.mk (List.replicate (k - s.length) ('0')) ++ s

/-- Fixed-point rendering of `v` with `dp` decimal places, as produced by the
Python format `f"{v:.{dp}f}"` on an exact value. -/
def formatFixed (v : ℚ) (dp : ℕ) : String :=
  let n : ℤ := roundHalfEven (|v| * 10 ^ dp)
  let sign : String := if v < 0 then ("-") else ("")
  let ip : ℕ := n.toNat / 10 ^ dp
  let fp : ℕ := n.toNat % 10 ^ dp
  if dp = 0 then sign ++ toString ip
  else sign ++ toString ip ++ (".") ++ padZeros (toString fp) dp

/-- Scientific rendering of a nonzero `v` as produced by the Python format
`f"{v:.2e}"` on an exact value: a mantissa with two decimal places and a
signed exponent of at least two digits, carrying into the exponent when the
mantissa rounds up to 10.00. -/
def formatSci (v : ℚ) : String :=
  let e0 : ℤ := Int.log 10 |v|
  let m0 : ℤ := roundHalfEven (|v| * 100 / (10 : ℚ) ^ e0)
  let m : ℤ := if 1000 ≤ m0 then 100 else m0
  let e : ℤ := if 1000 ≤ m0 then e0 + 1 else e0
  let sign : String := if v < 0 then ("-") else ("")
  let esign : String := if e < 0 then ("-") else ("+")
  sign ++ toString (m.toNat / 100) ++ (".") ++ padZeros (toString (m.toNat % 100)) 2 ++
    ("e") ++ esign ++ padZeros (toString e.natAbs) 2

/-- Embedding of `format_to_3_sig_figs(value)` from `app.py`: `'N/A'` for the
sentinel, `"0.00"` for zero, otherwise fixed notation whose number of decimal
places is `max(0, 3 - (floor(log10(abs(v))) + 1))` for `abs(v) >= 1` and
`-floor(log10(abs(v))) + 2` for `abs(v) < 1`. -/
def format_to_3_sig_figs (value : Option ℚ) : String :=
  match value with
  | none => ("N/A")
  | some v =>
    if v = 0 then ("0.00")
    else if 1 ≤ |v| then
      formatFixed v (Int.toNat (max 0 (3 - (Int.log 10 |v| + 1))))
    else
      formatFixed v (Int.toNat (-(Int.log 10 |v|) + 2))

/-- Embedding of `format_carbon_footprint_scientific(value)` from `app.py`:
`'N/A'` for the sentinel, `"0.00e+00"` for zero, otherwise the `%.2e`
rendering.  The water and water-scarcity scientific formatters in the source
have byte-identical bodies. -/
def format_carbon_footprint_scientific (value : Option ℚ) : String :=
  match value with
  | none => ("N/A")
  | some v => if v = 0 then ("0.00e+00") else formatSci v

/-- County reference row: `(fips, county_name, state_name, state_abbr)`. -/
structure CountyRef where
  fips : String
  county_name : String
  state_name : String
  state_abbr : String
deriving DecidableEq

/-- Factor-table row: `(fips, EWIF, EF, ACF, SWI)`, each factor possibly
unavailable. -/
structure FactorRow where
  fips : String
  EWIF : Option ℚ
  EF : Option ℚ
  ACF : Option ℚ
  SWI : Option ℚ
deriving DecidableEq

/-- One row of `plot_df` after both merges and the `fillna` defaults. -/
structure PlotRow where
  fips : String
  county_name : String
  state_name : String
  state_abbr : String
  EF : Option ℚ
  EWIF : Option ℚ
  ACF : Option ℚ
  SWI : Option ℚ
deriving DecidableEq

/-- Pandas left merge of the fips universe against the county reference
table on `fips`: each universe entry is expanded by all reference rows with
that key, or kept with no match. -/
def mergeCounty (all_fips : List String) (data : List CountyRef) :
    List (String × Option CountyRef) :=
  all_fips.flatMap (fun f =>
    if data.filter (fun r => r.fips == f) = [] then [(f, none)]
    else (data.filter (fun r => r.fips == f)).map (fun r => (f, some r)))

/-- Pandas left merge of the partially merged rows against the emission
factor table on `fips`. -/
def mergeEmission (rows : List (String × Option CountyRef)) (em : List FactorRow) :
    List (String × Option CountyRef × Option FactorRow) :=
  rows.flatMap (fun rc =>
    if em.filter (fun e => e.fips == rc.1) = [] then [(rc.1, rc.2, none)]
    else (em.filter (fun e => e.fips == rc.1)).map (fun e => (rc.1, rc.2, some e)))

/-- The `fillna` step of `app.py`: unmatched reference fields become
`"Unknown County"` / `"Unknown State"` / `"??"`, unmatched factor fields
become the `'N/A'` sentinel. -/
def fillRow (x : String × Option CountyRef × Option FactorRow) : PlotRow :=
  { fips := x.1
    county_name :=
      match x.2.1 with
      | some r => r.county_name
      | none => ("Unknown County")
    state_name :=
      match x.2.1 with
      | some r => r.state_name
      | none => ("Unknown State")
    state_abbr :=
      match x.2.1 with
      | some r => r.state_abbr
      | none => ("??")
    EF := x.2.2.bind (fun e => e.EF)
    EWIF := x.2.2.bind (fun e => e.EWIF)
    ACF := x.2.2.bind (fun e => e.ACF)
    SWI := x.2.2.bind (fun e => e.SWI) }

/-- Embedding of the `plot_df` construction of `app.py`: a dataframe of all
GeoJSON fips codes, left-merged with the county reference table, left-merged
with the emission factor table, with missing values filled. -/
def build_plot_df (all_fips : List String) (data : List CountyRef) (em : List FactorRow) :
    List PlotRow :=
  (mergeEmission (mergeCounty all_fips data) em).map fillRow

/-! ## Theorems -/

/-- C1: the carbon footprint equals `EF * power_kwh_per_year` when the
emission factor is available and the power is nonzero, and is the
Unavailable sentinel whenever the factor is unavailable or the power is
exactly 0, for any emission factor including a valid one. -/
theorem carbon_footprint_correct (ef_value : Option ℚ) (power ef : ℚ) :
    (ef_value = some ef → power ≠ 0 →
      calculate_carbon_footprint ef_value power = some (ef * power))
    ∧ (ef_value = none ∨ power = 0 →
      calculate_carbon_footprint ef_value power = none) := by
  constructor
  · intro hef hp
    subst hef
    simp [calculate_carbon_footprint, hp]
  · intro h
    rcases h with h | h
    · subst h; rfl
    · subst h
      cases ef_value <;> simp [calculate_carbon_footprint]

/-- Witness for C1 at a concrete input. -/
theorem carbon_footprint_correct_witness :
    calculate_carbon_footprint (some (1 / 2)) 876000 = some (1 / 2 * 876000)
    ∧ calculate_carbon_footprint (some (1 / 2)) 0 = none := by
  constructor
  · exact (carbon_footprint_correct (some (1 / 2)) 876000 (1 / 2)).1 rfl (by norm_num)
  · exact (carbon_footprint_correct (some (1 / 2)) 0 (1 / 2)).2 (Or.inr rfl)

/-- C2: the water-scarcity footprint is the sum of the two contributions
(each zero when its factor is unavailable); it is the Unavailable sentinel
exactly when the sum is zero and both raw inputs are exactly 0, and it is a
numeric (possibly 0) value whenever at least one raw input is nonzero. -/
theorem water_scarcity_footprint_correct (acf_value swi_value : Option ℚ)
    (power water : ℚ) :
    (calculate_water_scarcity_footprint acf_value swi_value power water = none
      ↔ ((acf_value.map (fun a => a * water)).getD 0
            + (swi_value.map (fun s => s * power)).getD 0 = 0
          ∧ water = 0 ∧ power = 0))
    ∧ (water ≠ 0 ∨ power ≠ 0 →
      calculate_water_scarcity_footprint acf_value swi_value power water
        = some ((acf_value.map (fun a => a * water)).getD 0
            + (swi_value.map (fun s => s * power)).getD 0)) := by
  constructor
  · cases acf_value <;> cases swi_value <;>
      simp [calculate_water_scarcity_footprint] <;> tauto
  · intro h
    cases acf_value <;> cases swi_value <;>
      simp [calculate_water_scarcity_footprint] <;> tauto

/-- Witness for C2 at a concrete input: both factors unavailable but a
nonzero water input still yields a numeric zero, not the sentinel. -/
theorem water_scarcity_footprint_correct_witness :
    calculate_water_scarcity_footprint none none 0 5
      = some (((none : Option ℚ).map (fun a => a * 5)).getD 0
          + ((none : Option ℚ).map (fun s => s * 0)).getD 0) :=
  (water_scarcity_footprint_correct none none 0 5).2 (Or.inl (by norm_num))

/-- C3: the water footprint is `water + EWIF * power` when EWIF is
available; when EWIF is unavailable it is the on-site water if positive and
the Unavailable sentinel otherwise, never a bare numeric 0. -/
theorem water_footprint_correct (ewif_value : Option ℚ) (power water ewif : ℚ) :
    (ewif_value = some ewif →
      calculate_water_footprint ewif_value power water = some (water + ewif * power))
    ∧ (ewif_value = none → 0 < water →
      calculate_water_footprint ewif_value power water = some water)
    ∧ (ewif_value = none → ¬0 < water →
      calculate_water_footprint ewif_value power water = none) := by
  refine ⟨?_, ?_, ?_⟩
  · intro h; subst h; rfl
  · intro h hw; subst h; simp [calculate_water_footprint, hw]
  · intro h hw; subst h; simp [calculate_water_footprint, hw]

/-- Witness for C3 at concrete inputs. -/
theorem water_footprint_correct_witness :
    calculate_water_footprint (some 2) 10 7 = some (7 + 2 * 10)
    ∧ calculate_water_footprint none 10 7 = some 7
    ∧ calculate_water_footprint none 10 0 = none := by
  refine ⟨?_, ?_, ?_⟩
  · exact (water_footprint_correct (some 2) 10 7 2).1 rfl
  · exact (water_footprint_correct none 10 7 2).2.1 rfl (by norm_num)
  · exact (water_footprint_correct none 10 0 2).2.2 rfl (by norm_num)

/-- C4: on every non-negative input the converters multiply by exactly the
declared scale factors: power by 1, 12, 8760 and 1000 * 8760; water by 1,
12, 31557600, 525600 * 3.78541 and 12 * 3.78541. -/
theorem converters_scale_factors (v : ℚ) (hv : 0 ≤ v) :
    convert_to_kwh_per_year v ("kWh/yr") = v * 1
    ∧ convert_to_kwh_per_year v ("kWh/mo") = v * 12
    ∧ convert_to_kwh_per_year v ("kW") = v * 8760
    ∧ convert_to_kwh_per_year v ("MW") = v * (1000 * 8760)
    ∧ convert_to_liters_per_year v ("L/yr") = v * 1
    ∧ convert_to_liters_per_year v ("L/mo") = v * 12
    ∧ convert_to_liters_per_year v ("L/s") = v * 31557600
    ∧ convert_to_liters_per_year v ("gpm") = v * (525600 * 3.78541)
    ∧ convert_to_liters_per_year v ("gal/mo") = v * (12 * 3.78541) := by
  refine ⟨?_, ?_, ?_, ?_, ?_, ?_, ?_, ?_, ?_⟩ <;>
    simp [convert_to_kwh_per_year, convert_to_liters_per_year] <;> ring

/-- Witness for C4 at a concrete input. -/
theorem converters_scale_factors_witness :
    convert_to_kwh_per_year 100 ("kW") = 100 * 8760 :=
  (converters_scale_factors 100 (by norm_num)).2.2.1

/-- C9: when every entry is unavailable, the classifier returns the no-data
color for every county and returns normally; no percentile is computed on
the empty numeric subset. -/
theorem classifier_all_no_data (values : List (Option ℚ)) (selected_metric : String)
    (h : values.filterMap id = []) :
    calculate_percentile_category values selected_metric
      = List.replicate values.length Color.gray := by
  unfold calculate_percentile_category
  simp [h]

/-- Witness for C9 at a concrete input. -/
theorem classifier_all_no_data_witness :
    calculate_percentile_category [none, none, none] ("Carbon Footprint")
      = List.replicate ([none, none, none] : List (Option ℚ)).length Color.gray :=
  classifier_all_no_data [none, none, none] ("Carbon Footprint") rfl

/-- C10: on any unit tag outside the declared enums both converters return
0 instead of raising an error. -/
theorem converters_unknown_unit (v : ℚ) (u : String)
    (hp : u ∉ [("kWh/yr"), ("kWh/mo"), ("kW"), ("MW")])
    (hw : u ∉ [("L/yr"), ("L/mo"), ("L/s"), ("gpm"), ("gal/mo")]) :
    convert_to_kwh_per_year v u = 0 ∧ convert_to_liters_per_year v u = 0 := by
  simp only [List.mem_cons, List.not_mem_nil, or_false, not_or] at hp hw
  obtain ⟨h1, h2, h3, h4⟩ := hp
  obtain ⟨h5, h6, h7, h8, h9⟩ := hw
  constructor
  · simp [convert_to_kwh_per_year, h1, h2, h3, h4]
  · simp [convert_to_liters_per_year, h5, h6, h7, h8, h9]

/-- Witness for C10 at a concrete input. -/
theorem converters_unknown_unit_witness :
    convert_to_kwh_per_year 7 ("BTU") = 0 ∧ convert_to_liters_per_year 7 ("BTU") = 0 :=
  converters_unknown_unit 7 ("BTU") (by decide) (by decide)

/-- C8: the fixed-notation formatter renders the sentinel as `"N/A"`, zero
as `"0.00"`, and any other value with `max(0, 3 - (floor(log10 abs v) + 1))`
decimal places when `abs v ≥ 1` and `-floor(log10 abs v) + 2` decimal places
when `abs v < 1`; the scientific formatter renders the sentinel as `"N/A"`,
zero as `"0.00e+00"`, and any other value in `%.2e` form. -/
theorem formatter_correct :
    (format_to_3_sig_figs none = ("N/A"))
    ∧ (format_to_3_sig_figs (some 0) = ("0.00"))
    ∧ (∀ v : ℚ, v ≠ 0 → 1 ≤ |v| →
        format_to_3_sig_figs (some v)
          = formatFixed v (Int.toNat (max 0 (3 - (Int.log 10 |v| + 1)))))
    ∧ (∀ v : ℚ, v ≠ 0 → |v| < 1 →
        format_to_3_sig_figs (some v)
          = formatFixed v (Int.toNat (-(Int.log 10 |v|) + 2)))
    ∧ (format_carbon_footprint_scientific none = ("N/A"))
    ∧ (format_carbon_footprint_scientific (some 0) = ("0.00e+00"))
    ∧ (∀ v : ℚ, v ≠ 0 → format_carbon_footprint_scientific (some v) = formatSci v) := by
  refine ⟨rfl, rfl, ?_, ?_, rfl, rfl, ?_⟩
  · intro v hv habs
    simp [format_to_3_sig_figs, hv, habs]
  · intro v hv habs
    simp [format_to_3_sig_figs, hv, not_le.mpr habs]
  · intro v hv
    simp [format_carbon_footprint_scientific, hv]

/-- Rounding an integer value is the identity. -/
theorem roundHalfEven_intCast (z : ℤ) : roundHalfEven (z : ℚ) = z := by
  unfold roundHalfEven
  rw [Int.floor_intCast]
  norm_num

/-- Witness for C8 at concrete inputs: 999 in fixed notation and 438000 in
scientific notation. -/
theorem formatter_correct_witness :
    format_to_3_sig_figs (some 999) = ("999")
    ∧ format_carbon_footprint_scientific (some 438000) = ("4.38e+05") := by
  have hlog999 : Int.log 10 (|(999 : ℚ)|) = 2 := by
    rw [abs_of_nonneg (by norm_num : (0 : ℚ) ≤ 999)]
    rw [show ((999 : ℚ)) = ((999 : ℕ) : ℚ) by norm_num, Int.log_natCast]
    exact_mod_cast Nat.log_eq_of_pow_le_of_lt_pow (by norm_num) (by norm_num)
  have hlog438 : Int.log 10 (|(438000 : ℚ)|) = 5 := by
    rw [abs_of_nonneg (by norm_num : (0 : ℚ) ≤ 438000)]
    rw [show ((438000 : ℚ)) = ((438000 : ℕ) : ℚ) by norm_num, Int.log_natCast]
    exact_mod_cast Nat.log_eq_of_pow_le_of_lt_pow (by norm_num) (by norm_num)
  constructor
  · have h := formatter_correct.2.2.1 999 (by norm_num)
      (by rw [abs_of_nonneg (by norm_num : (0 : ℚ) ≤ 999)]; norm_num)
    rw [h, hlog999]
    have hx : |(999 : ℚ)| * 10 ^ (0 : ℕ) = ((999 : ℤ) : ℚ) := by
      push_cast
      norm_num
    norm_num
    simp only [formatFixed, hx, roundHalfEven_intCast]
    norm_num
    decide
  · have h := formatter_correct.2.2.2.2.2.2 438000 (by norm_num)
    rw [h]
    have hx : |(438000 : ℚ)| * 100 / (10 : ℚ) ^ (5 : ℤ) = ((438 : ℤ) : ℚ) := by
      rw [abs_of_nonneg (by norm_num : (0 : ℚ) ≤ 438000)]
      norm_num
    simp only [formatSci, hlog438, hx, roundHalfEven_intCast]
    norm_num
    decide

/-- On a table whose key column has no duplicates, filtering by one key
value keeps at most one row. -/
theorem filter_key_length_le {α : Type} (key : α → String) (l : List α)
    (h : (l.map key).Nodup) (f : String) :
    (l.filter (fun x => key x == f)).length ≤ 1 := by
  induction l with
  | nil => simp
  | cons a t ih =>
    rw [List.map_cons, List.nodup_cons] at h
    obtain ⟨ha, ht⟩ := h
    rw [List.filter_cons]
    by_cases hk : key a = f
    · have hnil : t.filter (fun x => key x == f) = [] := by
        rw [List.filter_eq_nil_iff]
        intro b hb hkb
        exact ha (List.mem_map.mpr ⟨b, hb, by rw [beq_iff_eq] at hkb; rw [hkb, hk]⟩)
      simp [hk, hnil]
    · rw [if_neg (by simp [hk])]
      exact ih ht

/-- The left merge against a reference table with distinct keys keeps the
key column of the left table unchanged. -/
theorem mergeCounty_map_fst (all_fips : List String) (data : List CountyRef)
    (h : (data.map (fun r => r.fips)).Nodup) :
    (mergeCounty all_fips data).map Prod.fst = all_fips := by
  induction all_fips with
  | nil => rfl
  | cons f rest ih =>
    have hstep : mergeCounty (f :: rest) data =
        (if data.filter (fun r => r.fips == f) = [] then [(f, (none : Option CountyRef))]
          else (data.filter (fun r => r.fips == f)).map (fun r => (f, some r)))
          ++ mergeCounty rest data := by
      unfold mergeCounty
      rw [List.flatMap_cons]
    have hblock :
        ((if data.filter (fun r => r.fips == f) = [] then [(f, (none : Option CountyRef))]
          else (data.filter (fun r => r.fips == f)).map (fun r => (f, some r))).map Prod.fst)
          = [f] := by
      by_cases hms : data.filter (fun r => r.fips == f) = []
      · simp [hms]
      · obtain ⟨r, hr⟩ : ∃ r, data.filter (fun r => r.fips == f) = [r] := by
          refine List.length_eq_one.mp (le_antisymm ?_ ?_)
          · exact filter_key_length_le (fun r => r.fips) data h f
          · exact Nat.one_le_iff_ne_zero.mpr (by simpa [List.length_eq_zero] using hms)
        simp [hms, hr]
    rw [hstep, List.map_append, hblock, ih]
    rfl

/-- The left merge against a factor table with distinct keys keeps the key
column of the left table unchanged. -/
theorem mergeEmission_map_fst (rows : List (String × Option CountyRef))
    (em : List FactorRow) (h : (em.map (fun e => e.fips)).Nodup) :
    (mergeEmission rows em).map Prod.fst = rows.map Prod.fst := by
  induction rows with
  | nil => rfl
  | cons rc rest ih =>
    have hstep : mergeEmission (rc :: rest) em =
        (if em.filter (fun e => e.fips == rc.1) = []
            then [(rc.1, rc.2, (none : Option FactorRow))]
          else (em.filter (fun e => e.fips == rc.1)).map (fun e => (rc.1, rc.2, some e)))
          ++ mergeEmission rest em := by
      unfold mergeEmission
      rw [List.flatMap_cons]
    have hblock :
        ((if em.filter (fun e => e.fips == rc.1) = []
            then [(rc.1, rc.2, (none : Option FactorRow))]
          else (em.filter (fun e => e.fips == rc.1)).map (fun e => (rc.1, rc.2, some e))).map
            Prod.fst) = [rc.1] := by
      by_cases hms : em.filter (fun e => e.fips == rc.1) = []
      · simp [hms]
      · obtain ⟨e, he⟩ : ∃ e, em.filter (fun e => e.fips == rc.1) = [e] := by
          refine List.length_eq_one.mp (le_antisymm ?_ ?_)
          · exact filter_key_length_le (fun e => e.fips) em h rc.1
          · exact Nat.one_le_iff_ne_zero.mpr (by simpa [List.length_eq_zero] using hms)
        simp [hms, he]
    rw [hstep, List.map_append, hblock, ih]
    rfl

/-- The fips column of the final plot table is exactly the fips universe. -/
theorem build_plot_df_map_fips (all_fips : List String) (data : List CountyRef)
    (em : List FactorRow)
    (h1 : (data.map (fun r => r.fips)).Nodup)
    (h2 : (em.map (fun e => e.fips)).Nodup) :
    (build_plot_df all_fips data em).map (fun r => r.fips) = all_fips := by
  unfold build_plot_df
  rw [List.map_map]
  rw [show ((fun r : PlotRow => r.fips) ∘ fillRow) = Prod.fst from funext fun x => rfl]
  rw [mergeEmission_map_fst _ _ h2, mergeCounty_map_fst _ _ h1]

/-- C6: with distinct keys, the output table has exactly one row per county
id of the universe, in order; a universe id matching no reference row and no
factor row is retained with the default identity fields and all factor
fields unavailable, rather than being dropped. -/
theorem plot_df_join_correct (all_fips : List String) (data : List CountyRef)
    (em : List FactorRow)
    (h0 : all_fips.Nodup)
    (h1 : (data.map (fun r => r.fips)).Nodup)
    (h2 : (em.map (fun e => e.fips)).Nodup) :
    ((build_plot_df all_fips data em).map (fun r => r.fips) = all_fips)
    ∧ (∀ f ∈ all_fips,
        (build_plot_df all_fips data em).countP (fun r => r.fips == f) = 1)
    ∧ (∀ f ∈ all_fips, f ∉ data.map (fun r => r.fips) → f ∉ em.map (fun e => e.fips) →
        PlotRow.mk f ("Unknown County") ("Unknown State") ("??") none none none none
          ∈ build_plot_df all_fips data em) := by
  have hmap := build_plot_df_map_fips all_fips data em h1 h2
  refine ⟨hmap, ?_, ?_⟩
  · intro f hf
    have hcnt : (build_plot_df all_fips data em).countP (fun r => r.fips == f)
        = ((build_plot_df all_fips data em).map (fun r => r.fips)).countP (fun s => s == f) := by
      rw [List.countP_map]
      rfl
    rw [hcnt, hmap]
    have hle : all_fips.count f ≤ 1 := List.nodup_iff_count_le_one.mp h0 f
    have hge : 0 < all_fips.count f := List.count_pos_iff.mpr hf
    have : all_fips.count f = 1 := le_antisymm hle hge
    simpa [List.count_eq_countP] using this
  · intro f hf hnd hne
    have hfd : data.filter (fun r => r.fips == f) = [] := by
      rw [List.filter_eq_nil_iff]
      intro r hr hkr
      exact hnd (List.mem_map.mpr ⟨r, hr, by rwa [beq_iff_eq] at hkr⟩)
    have hfe : em.filter (fun e => e.fips == f) = [] := by
      rw [List.filter_eq_nil_iff]
      intro e he hke
      exact hne (List.mem_map.mpr ⟨e, he, by rwa [beq_iff_eq] at hke⟩)
    have hm1 : (f, (none : Option CountyRef)) ∈ mergeCounty all_fips data := by
      unfold mergeCounty
      exact List.mem_flatMap.mpr ⟨f, hf, by simp [hfd]⟩
    have hm2 : (f, (none : Option CountyRef), (none : Option FactorRow))
        ∈ mergeEmission (mergeCounty all_fips data) em := by
      unfold mergeEmission
      exact List.mem_flatMap.mpr ⟨(f, none), hm1, by simp [hfe]⟩
    exact List.mem_map.mpr ⟨(f, none, none), hm2, rfl⟩

/-- Witness for C6 at a concrete universe, reference table and factor
table: the second universe id matches nothing and is kept with defaults. -/
theorem plot_df_join_correct_witness :
    (build_plot_df [("01001"), ("99999")]
        [CountyRef.mk ("01001") ("Autauga County") ("Alabama") ("AL")]
        [FactorRow.mk ("01001") (some 1) (some 2) none none]).map (fun r => r.fips)
      = [("01001"), ("99999")]
    ∧ PlotRow.mk ("99999") ("Unknown County") ("Unknown State") ("??") none none none none
        ∈ build_plot_df [("01001"), ("99999")]
            [CountyRef.mk ("01001") ("Autauga County") ("Alabama") ("AL")]
            [FactorRow.mk ("01001") (some 1) (some 2) none none] := by
  have h := plot_df_join_correct [("01001"), ("99999")]
    [CountyRef.mk ("01001") ("Autauga County") ("Alabama") ("AL")]
    [FactorRow.mk ("01001") (some 1) (some 2) none none]
    (by decide) (by decide) (by decide)
  exact ⟨h.1, h.2.2 ("99999") (by decide) (by decide) (by decide)⟩

/-- In a sorted list, a downward-closed predicate holds at index `i` exactly
when more than `i` elements satisfy it. -/
theorem sorted_get_iff_countP (P : ℚ → Bool)
    (hP : ∀ a b : ℚ, a ≤ b → P b = true → P a = true) :
    ∀ (s : List ℚ), List.Sorted (fun a b : ℚ => a ≤ b) s →
      ∀ (i : ℕ) (h : i < s.length), (P (s.get ⟨i, h⟩) = true ↔ i < s.countP P) := by
  intro s
  induction s with
  | nil =>
    intro _ i h
    exact absurd h (by simp)
  | cons a t ih =>
    intro hs i h
    rw [List.sorted_cons] at hs
    obtain ⟨ha, ht⟩ := hs
    rw [List.countP_cons]
    cases i with
    | zero =>
      by_cases hPa : P a = true
      · simp [List.get, hPa]
      · have hct : t.countP P = 0 := by
          rw [List.countP_eq_zero]
          intro b hb hPb
          exact hPa (hP a b (ha b hb) hPb)
        simp [List.get, hPa, hct]
    | succ n =>
      have hn : n < t.length := by simpa using h
      rw [show (a :: t).get ⟨n + 1, h⟩ = t.get ⟨n, hn⟩ from rfl]
      by_cases hPa : P a = true
      · rw [if_pos hPa, ih ht n hn]
        omega
      · rw [if_neg hPa]
        have hct : t.countP P = 0 := by
          rw [List.countP_eq_zero]
          intro b hb hPb
          exact hPa (hP a b (ha b hb) hPb)
        have hgf : ¬P (t.get ⟨n, hn⟩) = true :=
          List.countP_eq_zero.mp hct _ (List.get_mem t n hn)
        rw [hct]
        constructor
        · intro hx
          exact absurd hx hgf
        · intro hx
          exact absurd hx (by omega)

/-- Reading an in-range index with a default falls back to `List.get`. -/
theorem getD_eq_get (l : List ℚ) (d : ℚ) (j : ℕ) (h : j < l.length) :
    l.getD j d = l.get ⟨j, h⟩ := by
  rw [List.getD_eq_get?, List.get?_eq_get h]
  rfl

/-- Replacing the numeric value at index `k` exchanges one count of the old
value for one count of the new value, for any predicate. -/
theorem countP_filterMap_set (p : ℚ → Bool) (values : List (Option ℚ)) :
    ∀ (k : ℕ) (v v' : ℚ), values.get? k = some (some v) →
      ((values.set k (some v')).filterMap id).countP p + (if p v then 1 else 0)
        = (values.filterMap id).countP p + (if p v' then 1 else 0) := by
  induction values with
  | nil =>
    intro k v v' hk
    simp at hk
  | cons a t ih =>
    intro k v v' hk
    cases k with
    | zero =>
      rw [List.get?_cons_zero] at hk
      injection hk with hk
      subst hk
      simp [List.set_cons_zero, List.filterMap_cons, List.countP_cons]
      omega
    | succ n =>
      rw [List.get?_cons_succ] at hk
      have H := ih n v v' hk
      cases a with
      | none =>
        simpa [List.set_cons_succ, List.filterMap_cons] using H
      | some w =>
        simp only [List.set_cons_succ, List.filterMap_cons, id, List.countP_cons]
        omega

/-- Replacing the numeric value at index `k` keeps the size of the numeric
subset unchanged. -/
theorem length_filterMap_set (values : List (Option ℚ)) (k : ℕ) (v v' : ℚ)
    (hk : values.get? k = some (some v)) :
    ((values.set k (some v')).filterMap id).length = (values.filterMap id).length := by
  have H := countP_filterMap_set (fun _ => true) values k v v' hk
  simpa using H

/-- A numeric entry of the value column belongs to the numeric subset. -/
theorem mem_filterMap_of_get? (values : List (Option ℚ)) (k : ℕ) (v : ℚ)
    (hk : values.get? k = some (some v)) : v ∈ values.filterMap id :=
  List.mem_filterMap.mpr ⟨some v, List.get?_mem hk, rfl⟩

/-- Elements strictly below `v` together with the copies of `v` are all
at most `v'` whenever `v ≤ v'`. -/
theorem countP_lt_add_count_le (v v' : ℚ) (hvv : v ≤ v') (l : List ℚ) :
    l.countP (fun y => decide (y < v)) + l.count v
      ≤ l.countP (fun y => decide (y ≤ v')) := by
  induction l with
  | nil => simp
  | cons a t ih =>
    simp only [List.countP_cons, List.count_cons]
    have hstep : (if decide (a < v) = true then 1 else 0) + (if a == v then 1 else 0)
        ≤ if decide (a ≤ v') = true then 1 else 0 := by
      by_cases h1 : a < v
      · have h3 : a ≤ v' := le_trans h1.le hvv
        have hne : ¬(a == v) = true := by
          simp only [beq_iff_eq]
          exact ne_of_lt h1
        simp [h1, h3, hne]
      · by_cases h2 : a = v
        · have h3 : a ≤ v' := h2.le.trans hvv
          simp [h1, h2, h3, hvv]
        · have hne : ¬(a == v) = true := by
            simp only [beq_iff_eq]
            exact h2
          by_cases h3 : a ≤ v'
          · simp [h1, hne, h3]
          · simp [h1, hne, h3]
    linarith [Nat.add_le_add ih hstep]

/-- Core percentile bound: if the multiset `M'` has the same size as `M`,
the same number of elements strictly below `v`, and the same number of
elements at most `v'`, then a percentile of `M` strictly below `v` forces
the corresponding percentile of `M'` strictly below `v'`. -/
theorem np_percentile_lt_of_counts (M M' : List ℚ) (v v' q : ℚ)
    (hvmem : v ∈ M) (hlen : M'.length = M.length)
    (hclt : M'.countP (fun y => decide (y < v)) = M.countP (fun y => decide (y < v)))
    (hcle : M'.countP (fun y => decide (y ≤ v')) = M.countP (fun y => decide (y ≤ v')))
    (hvv : v < v') (hq0 : 0 ≤ q) (hq1 : q < 100)
    (hlt : np_percentile M q < v) :
    np_percentile M' q < v' := by
  have hn1 : 1 ≤ M.length := List.length_pos.mpr (List.ne_nil_of_mem hvmem)
  by_cases hone : M.length = 1
  · obtain ⟨a, ha⟩ := List.length_eq_one.mp hone
    have hva : v = a := by
      rw [ha] at hvmem
      simpa using hvmem
    have hM : M = [v] := by rw [ha, hva]
    rw [hM] at hlt
    have hpv : np_percentile [v] q = v := by
      unfold np_percentile interp
      norm_num [List.insertionSort, List.orderedInsert]
    rw [hpv] at hlt
    exact absurd hlt (lt_irrefl v)
  have hn2 : 2 ≤ M.length := by omega
  obtain ⟨r, hrdef⟩ : ∃ r, q * ((M.length : ℚ) - 1) / 100 = r := ⟨_, rfl⟩
  have hps : np_percentile M q = interp (List.insertionSort (· ≤ ·) M) r := by
    unfold np_percentile
    rw [hrdef]
  have hps' : np_percentile M' q = interp (List.insertionSort (· ≤ ·) M') r := by
    unfold np_percentile
    rw [hlen, hrdef]
  set s := List.insertionSort (· ≤ ·) M with hsdef
  set s' := List.insertionSort (· ≤ ·) M' with hs'def
  have hsort : List.Sorted (fun a b : ℚ => a ≤ b) s := List.sorted_insertionSort _ M
  have hsort' : List.Sorted (fun a b : ℚ => a ≤ b) s' := List.sorted_insertionSort _ M'
  have hsperm : s.Perm M := List.perm_insertionSort _ M
  have hs'perm : s'.Perm M' := List.perm_insertionSort _ M'
  have hslen : s.length = M.length := hsperm.length_eq
  have hs'len : s'.length = M.length := by rw [hs'perm.length_eq, hlen]
  have hr0 : 0 ≤ r := by
    rw [← hrdef]
    apply div_nonneg _ (by norm_num : (0 : ℚ) ≤ 100)
    apply mul_nonneg hq0
    have h1n : (1 : ℚ) ≤ (M.length : ℚ) := by exact_mod_cast hn1
    linarith
  have hrlt : r < (M.length : ℚ) - 1 := by
    rw [← hrdef]
    rw [div_lt_iff (by norm_num : (0 : ℚ) < 100)]
    have h2n : (2 : ℚ) ≤ (M.length : ℚ) := by exact_mod_cast hn2
    nlinarith
  obtain ⟨i, hidef⟩ : ∃ i : ℕ, (⌊r⌋).toNat = i := ⟨_, rfl⟩
  have hfl0 : (0 : ℤ) ≤ ⌊r⌋ := Int.floor_nonneg.mpr hr0
  have hicast : ((i : ℕ) : ℚ) = ((⌊r⌋ : ℤ) : ℚ) := by
    rw [← hidef]
    exact_mod_cast Int.toNat_of_nonneg hfl0
  have hi_le : (i : ℚ) ≤ r := by
    rw [hicast]
    exact Int.floor_le r
  have hi_lt : r < (i : ℚ) + 1 := by
    rw [hicast]
    exact Int.lt_floor_add_one r
  have hi1n : i + 1 < M.length := by
    have h1 : (i : ℚ) < (M.length : ℚ) - 1 := lt_of_le_of_lt hi_le hrlt
    have h2 : ((i : ℕ) : ℚ) + 1 < (M.length : ℚ) := by linarith
    exact_mod_cast h2
  have hgi : i < s.length := by omega
  have hgi1 : i + 1 < s.length := by omega
  have hgi' : i < s'.length := by omega
  have hgi1' : i + 1 < s'.length := by omega
  have hinterp : interp s r
      = s.get ⟨i, hgi⟩ + (r - (i : ℚ)) * (s.get ⟨i + 1, hgi1⟩ - s.get ⟨i, hgi⟩) := by
    unfold interp
    rw [hidef, getD_eq_get s 0 i hgi, getD_eq_get s (s.get ⟨i, hgi⟩) (i + 1) hgi1]
  have hinterp' : interp s' r
      = s'.get ⟨i, hgi'⟩ + (r - (i : ℚ)) * (s'.get ⟨i + 1, hgi1'⟩ - s'.get ⟨i, hgi'⟩) := by
    unfold interp
    rw [hidef, getD_eq_get s' 0 i hgi', getD_eq_get s' (s'.get ⟨i, hgi'⟩) (i + 1) hgi1']
  have hsorted_pair : s.get ⟨i, hgi⟩ ≤ s.get ⟨i + 1, hgi1⟩ :=
    hsort.rel_get_of_lt (Fin.mk_lt_mk.mpr (Nat.lt_succ_self i))
  have hf0 : 0 ≤ r - (i : ℚ) := by linarith
  have hf1 : r - (i : ℚ) < 1 := by linarith
  have hlo_lt_v : s.get ⟨i, hgi⟩ < v := by
    have hple : s.get ⟨i, hgi⟩ ≤ np_percentile M q := by
      rw [hps, hinterp]
      nlinarith [mul_nonneg hf0 (sub_nonneg.mpr hsorted_pair)]
    linarith
  have hdownlt : ∀ a b : ℚ, a ≤ b → decide (b < v) = true → decide (a < v) = true := by
    intro a b hab hb
    rw [decide_eq_true_eq] at hb ⊢
    linarith
  have hdownle : ∀ a b : ℚ, a ≤ b → decide (b ≤ v') = true → decide (a ≤ v') = true := by
    intro a b hab hb
    rw [decide_eq_true_eq] at hb ⊢
    linarith
  have hc1 : i < s.countP (fun y => decide (y < v)) :=
    (sorted_get_iff_countP _ hdownlt s hsort i hgi).mp (decide_eq_true hlo_lt_v)
  have hcMs : s.countP (fun y => decide (y < v)) = M.countP (fun y => decide (y < v)) :=
    hsperm.countP_eq _
  have hc1' : i < s'.countP (fun y => decide (y < v)) := by
    have e1 : s'.countP (fun y => decide (y < v)) = M'.countP (fun y => decide (y < v)) :=
      hs'perm.countP_eq _
    omega
  have hlo'v : s'.get ⟨i, hgi'⟩ < v :=
    of_decide_eq_true ((sorted_get_iff_countP _ hdownlt s' hsort' i hgi').mpr hc1')
  have hhi'le : s'.get ⟨i + 1, hgi1'⟩ ≤ v' := by
    have hcnt := countP_lt_add_count_le v v' hvv.le M
    have hvcnt : 0 < M.count v := List.count_pos_iff.mpr hvmem
    have e2 : s'.countP (fun y => decide (y ≤ v')) = M'.countP (fun y => decide (y ≤ v')) :=
      hs'perm.countP_eq _
    have hc2 : i + 1 < s'.countP (fun y => decide (y ≤ v')) := by omega
    exact of_decide_eq_true ((sorted_get_iff_countP _ hdownle s' hsort' (i + 1) hgi1').mpr hc2)
  rw [hps', hinterp']
  have hA : s'.get ⟨i, hgi'⟩ < v' := lt_trans hlo'v hvv
  nlinarith [mul_pos (show (0 : ℚ) < 1 - (r - (i : ℚ)) by linarith)
      (show (0 : ℚ) < v' - s'.get ⟨i, hgi'⟩ by linarith),
    mul_nonneg hf0 (show (0 : ℚ) ≤ v' - s'.get ⟨i + 1, hgi1'⟩ by linarith)]

/-- Replacing one numeric value of the column by a strictly larger one:
a percentile strictly below the old value stays strictly below the new
value after recomputation. -/
theorem np_percentile_replace_lt (values : List (Option ℚ)) (k : ℕ) (v v' q : ℚ)
    (hk : values.get? k = some (some v)) (hvv : v < v')
    (hq0 : 0 ≤ q) (hq1 : q < 100)
    (hlt : np_percentile (values.filterMap id) q < v) :
    np_percentile ((values.set k (some v')).filterMap id) q < v' := by
  apply np_percentile_lt_of_counts (values.filterMap id) _ v v' q
    (mem_filterMap_of_get? values k v hk) (length_filterMap_set values k v v' hk)
    ?_ ?_ hvv hq0 hq1 hlt
  · have H := countP_filterMap_set (fun y => decide (y < v)) values k v v' hk
    simpa [lt_irrefl, lt_asymm hvv] using H
  · have H := countP_filterMap_set (fun y => decide (y ≤ v')) values k v v' hk
    simpa [hvv.le, le_refl] using H

/-- With a nonempty numeric subset, the classifier maps each entry through
the percentile rule against the 33rd and 67th percentiles. -/
theorem percentile_category_eq_map (values : List (Option ℚ)) (selected_metric : String)
    (h : values.filterMap id ≠ []) :
    calculate_percentile_category values selected_metric =
      values.map (fun val =>
        match val with
        | none => Color.gray
        | some num_val =>
          if num_val ≤ np_percentile (values.filterMap id) 33 then Color.green
          else if num_val ≤ np_percentile (values.filterMap id) 67 then Color.yellow
          else Color.red) := by
  simp only [calculate_percentile_category]
  rw [if_neg (by simpa [List.length_eq_zero] using h)]

/-- C5: whenever the numeric subset is nonempty, the classifier computes
the 33rd and 67th linear-interpolation percentiles of the numeric subset
and assigns Unavailable entries the no-data color, values at most the 33rd
percentile the low tier, values at most the 67th percentile the medium
tier, and larger values the high tier. -/
theorem classifier_percentile_rule (values : List (Option ℚ)) (selected_metric : String)
    (h : values.filterMap id ≠ []) :
    calculate_percentile_category values selected_metric =
      values.map (fun val =>
        match val with
        | none => Color.gray
        | some num_val =>
          if num_val ≤ np_percentile (values.filterMap id) 33 then Color.green
          else if num_val ≤ np_percentile (values.filterMap id) 67 then Color.yellow
          else Color.red) :=
  percentile_category_eq_map values selected_metric h

/-- Witness for C5 at a concrete input. -/
theorem classifier_percentile_rule_witness :
    calculate_percentile_category [some 1, some 2, some 4, none] ("Carbon Footprint") =
      ([some 1, some 2, some 4, none] : List (Option ℚ)).map (fun val =>
        match val with
        | none => Color.gray
        | some num_val =>
          if num_val ≤
              np_percentile (([some 1, some 2, some 4, none] : List (Option ℚ)).filterMap id) 33
            then Color.green
          else if num_val ≤
              np_percentile (([some 1, some 2, some 4, none] : List (Option ℚ)).filterMap id) 67
            then Color.yellow
          else Color.red) :=
  classifier_percentile_rule [some 1, some 2, some 4, none] ("Carbon Footprint") (by decide)

/-- C7: for a fixed value column, replacing one county's numeric value by a
strictly larger one and recomputing the percentile thresholds over the
modified column assigns that county an equal or higher tier in the numeric
color code, never a lower one. -/
theorem classifier_monotone (values : List (Option ℚ)) (selected_metric : String)
    (k : ℕ) (v v' : ℚ) (hk : values.get? k = some (some v)) (hvv : v < v') :
    colorCode ((calculate_percentile_category values selected_metric).getD k Color.gray)
      ≤ colorCode
          ((calculate_percentile_category (values.set k (some v')) selected_metric).getD k
            Color.gray) := by
  have hmem : v ∈ values.filterMap id := mem_filterMap_of_get? values k v hk
  have hne : values.filterMap id ≠ [] := List.ne_nil_of_mem hmem
  obtain ⟨hklen, -⟩ := List.get?_eq_some.mp hk
  have hk' : (values.set k (some v')).get? k = some (some v') :=
    List.get?_set_eq_of_lt (some v') hklen
  have hmem' : v' ∈ (values.set k (some v')).filterMap id :=
    mem_filterMap_of_get? _ k v' hk'
  have hne' : (values.set k (some v')).filterMap id ≠ [] := List.ne_nil_of_mem hmem'
  rw [percentile_category_eq_map values selected_metric hne,
    percentile_category_eq_map _ selected_metric hne']
  have hget1 : ((values.map (fun val =>
      match val with
      | none => Color.gray
      | some num_val =>
        if num_val ≤ np_percentile (values.filterMap id) 33 then Color.green
        else if num_val ≤ np_percentile (values.filterMap id) 67 then Color.yellow
        else Color.red)).getD k Color.gray)
      = (if v ≤ np_percentile (values.filterMap id) 33 then Color.green
        else if v ≤ np_percentile (values.filterMap id) 67 then Color.yellow
        else Color.red) := by
    rw [List.getD_eq_get?, List.get?_map, hk]
    rfl
  have hget2 : (((values.set k (some v')).map (fun val =>
      match val with
      | none => Color.gray
      | some num_val =>
        if num_val ≤ np_percentile ((values.set k (some v')).filterMap id) 33 then Color.green
        else if num_val ≤ np_percentile ((values.set k (some v')).filterMap id) 67 then
          Color.yellow
        else Color.red)).getD k Color.gray)
      = (if v' ≤ np_percentile ((values.set k (some v')).filterMap id) 33 then Color.green
        else if v' ≤ np_percentile ((values.set k (some v')).filterMap id) 67 then Color.yellow
        else Color.red) := by
    rw [List.getD_eq_get?, List.get?_map, hk']
    rfl
  rw [hget1, hget2]
  by_cases h33 : v ≤ np_percentile (values.filterMap id) 33
  · rw [if_pos h33]
    exact Nat.zero_le _
  · have hp33' : np_percentile ((values.set k (some v')).filterMap id) 33 < v' :=
      np_percentile_replace_lt values k v v' 33 hk hvv (by norm_num) (by norm_num)
        (not_le.mp h33)
    rw [if_neg h33, if_neg (not_le.mpr hp33')]
    by_cases h67 : v ≤ np_percentile (values.filterMap id) 67
    · rw [if_pos h67]
      by_cases h67' : v' ≤ np_percentile ((values.set k (some v')).filterMap id) 67
      · rw [if_pos h67']
      · rw [if_neg h67']
        exact Nat.le_succ 1
    · have hp67' : np_percentile ((values.set k (some v')).filterMap id) 67 < v' :=
        np_percentile_replace_lt values k v v' 67 hk hvv (by norm_num) (by norm_num)
          (not_le.mp h67)
      rw [if_neg h67, if_neg (not_le.mpr hp67')]

/-- Witness for C7 at a concrete input: raising the third county's value
from 3 to 10 recomputes the thresholds and keeps its tier at least as
high. -/
theorem classifier_monotone_witness :
    colorCode
        ((calculate_percentile_category [some 1, some 2, some 3] ("Carbon Footprint")).getD 2
          Color.gray)
      ≤ colorCode
          ((calculate_percentile_category ([some 1, some 2, some 3].set 2 (some 10))
              ("Carbon Footprint")).getD 2 Color.gray) :=
  classifier_monotone [some 1, some 2, some 3] ("Carbon Footprint") 2 3 10 (by decide)
    (by decide)
